import Mathlib

/-!
Verification development for the geometric core of the face-processor module
(`src/core/image_processor.py`, class `ImageProcessor`).

The embedding models NumPy arrays as a shape, a dtype and a row-major list of
exact rational samples.  Python `int()` is truncation toward zero, `//` is
floor division, and NumPy basic slicing is total (endpoints are clamped, and
negative endpoints count from the end of the axis).  Host-language failures
(`AttributeError` on `None.shape`, `IndexError` on `.iloc[0]` of an empty
selection or on slicing with too many indices, `ValueError` on `.max()` of a
zero-size array, `cv2.error` on unsupported depths) are modelled with
`Except`.
-/

/-- NumPy dtypes that occur in the module. -/
inductive DType where
  | uint8
  | float32
  | float64
deriving DecidableEq

/-- A NumPy array: shape, dtype, and row-major sample data as exact rationals. -/
structure NDArr where
  shape : List ℕ
  dtype : DType
  data : List ℚ
deriving DecidableEq

/-- Host-language failure modes raised by the code. -/
inductive PyErr where
  | attributeError
  | indexError
  | valueError
  | cvError
deriving DecidableEq

/-- Python `int()` applied to a rational: truncation toward zero. -/
def pyInt (q : ℚ) : ℤ := q.num.tdiv q.den

/-- Python `//` (floor division) on integers. -/
def pyFloorDiv (a b : ℤ) : ℤ := Int.fdiv a b

/-- NumPy effective slice endpoint on an axis of length `n`: a negative
endpoint counts from the end; endpoints are clamped into `[0, n]`. -/
def sliceIdx (n : ℕ) (i : ℤ) : ℕ :=
  if i < 0 then ((n : ℤ) + i).toNat else min i.toNat n

/-- NumPy basic slicing `a[r1:r2, c1:c2]` on an array with at least two axes.
Giving two slice indices to a 0-D or 1-D array raises `IndexError`. -/
def npSlice (a : NDArr) (r1 r2 c1 c2 : ℤ) : Except PyErr NDArr :=
  match a.shape with
  | hh :: ww :: rest =>
    let rs := sliceIdx hh r1
    let rEnd := sliceIdx hh r2
    let cs := sliceIdx ww c1
    let cEnd := sliceIdx ww c2
    let chunk := rest.prod
    .ok ⟨(rEnd - rs) :: (cEnd - cs) :: rest, a.dtype,
      (List.range (rEnd - rs)).flatMap (fun i =>
        (List.range (cEnd - cs)).flatMap (fun j =>
          (List.range chunk).map (fun k =>
            a.data.getD (((rs + i) * ww + (cs + j)) * chunk + k) 0)))⟩
  | _ => .error .indexError

/-- `image[0]`: strip the leading (batch) axis. -/
def npFirst (a : NDArr) : NDArr :=
  ⟨a.shape.tail, a.dtype, a.data.take a.shape.tail.prod⟩

/-- NumPy float-to-uint8 conversion of one sample: truncate toward zero and
wrap modulo 256. -/
def toUint8 (q : ℚ) : ℚ := ((pyInt q % 256 : ℤ) : ℚ)

/-- `(image * 255).astype(np.uint8)`. -/
def scaleTo255 (a : NDArr) : NDArr :=
  ⟨a.shape, .uint8, a.data.map (fun v => toUint8 (v * 255))⟩

/-- `image.max()`: `none` models the `ValueError` NumPy raises on a
zero-size array; otherwise the maximum sample. -/
def npMax (a : NDArr) : Option ℚ :=
  match a.data with
  | [] => none
  | q :: qs => some (qs.foldl max q)

/-- `cv2.cvtColor(image, cv2.COLOR_GRAY2RGB)` on a 2-D array: replicate the
single channel three times.  Double-precision input is unsupported by cv2. -/
def cvtGray2RGB (a : NDArr) : Except PyErr NDArr :=
  if a.dtype = .float64 then .error .cvError
  else .ok ⟨a.shape ++ [3], a.dtype, a.data.flatMap (fun v => [v, v, v])⟩

/-- Drop every fourth (alpha) sample of an RGBA-interleaved data list. -/
def dropAlpha : List ℚ → List ℚ
  | r :: g :: b :: _ :: rest => r :: g :: b :: dropAlpha rest
  | l => l

/-- `cv2.cvtColor(image, cv2.COLOR_RGBA2RGB)`: drop the alpha channel (a
straight channel drop, no compositing).  Requires a 3-D array of a depth
cv2 supports. -/
def cvtRGBA2RGB (a : NDArr) : Except PyErr NDArr :=
  if a.dtype = .float64 ∨ a.shape.length ≠ 3 then .error .cvError
  else .ok ⟨a.shape.dropLast ++ [3], a.dtype, dropAlpha a.data⟩

/-- The input union of `_convert_to_numpy`: a torch tensor, a PIL image
(modelled by the array `np.array` yields for it), or a NumPy array. -/
inductive ImgInput where
  | tensor (a : NDArr)
  | pil (a : NDArr)
  | arr (a : NDArr)
deriving DecidableEq

/-- The shape-normalization tail of `_convert_to_numpy` (lines 25-30 of the
source): grayscale is broadcast to RGB, 4-channel drops alpha, anything else
is returned unchanged; `image.shape[2]` on a 0-D or 1-D array raises. -/
def finishConvert (a : NDArr) : Except PyErr NDArr :=
  if a.shape.length = 2 then cvtGray2RGB a
  else
    match a.shape.get? 2 with
    | none => .error .indexError
    | some c => if c = 4 then cvtRGBA2RGB a else .ok a

/-- `ImageProcessor._convert_to_numpy`.  `none` models Python `None`, whose
`.shape` access raises `AttributeError`.  The guard
`image.dtype == np.float32 and image.max() <= 1.0` short-circuits, so
`.max()` is evaluated (and can raise) exactly when the dtype is float32. -/
def convert_to_numpy (image : Option ImgInput) : Except PyErr NDArr :=
  match image with
  | none => .error .attributeError
  | some i =>
    let pre : Except PyErr NDArr :=
      match i with
      | .tensor t => .ok (scaleTo255 (if t.shape.length = 4 then npFirst t else t))
      | .pil im => .ok im
      | .arr n =>
        if n.dtype = .float32 then
          match npMax n with
          | none => .error .valueError
          | some m =>
            let n1 := if m ≤ 1 then scaleTo255 n else n
            .ok (if n1.shape.length = 4 then npFirst n1 else n1)
        else
          .ok (if n.shape.length = 4 then npFirst n else n)
    pre.bind finishConvert

/-- One row of the landmarks DataFrame: columns `index`, `x`, `y`. -/
structure Landmark where
  index : ℤ
  x : ℚ
  y : ℚ
deriving DecidableEq

/-- Minimum of a pandas column (guarded by the `.empty` check in the code). -/
def colMin : List ℚ → ℚ
  | [] => 0
  | q :: qs => qs.foldl min q

/-- Maximum of a pandas column (guarded by the `.empty` check in the code). -/
def colMax : List ℚ → ℚ
  | [] => 0
  | q :: qs => qs.foldl max q

/-- `ImageProcessor.calculate_face_bbox`. -/
def calculate_face_bbox (landmarks_df : Option (List Landmark))
    (padding_percent : ℚ) : Option (ℤ × ℤ × ℤ × ℤ) :=
  match landmarks_df with
  | none => none
  | some df =>
    if df.isEmpty then none
    else
      let min_x := colMin (df.map (·.x))
      let max_x := colMax (df.map (·.x))
      let min_y := colMin (df.map (·.y))
      let max_y := colMax (df.map (·.y))
      let width := max_x - min_x
      let height := max_y - min_y
      let pad_x := width * padding_percent
      let pad_y := height * padding_percent
      let x1 := max 0 (min_x - pad_x)
      let y1 := max 0 (min_y - pad_y)
      let x2 := max_x + pad_x
      let y2 := max_y + pad_y
      some (pyInt x1, pyInt y1, pyInt (x2 - x1), pyInt (y2 - y1))

/-- `ImageProcessor.crop_face`. -/
def crop_face (image : Option ImgInput) (landmarks_df : Option (List Landmark))
    (padding_percent : ℚ) : Except PyErr (Option NDArr) :=
  match convert_to_numpy image with
  | .error e => .error e
  | .ok image_np =>
    match calculate_face_bbox landmarks_df padding_percent with
    | none => .ok none
    | some (x, y, w, h) =>
      match npSlice image_np y (y + h) x (x + w) with
      | .error e => .error e
      | .ok c => .ok (some c)

/-- `ImageProcessor.crop_face_to_square`. -/
def crop_face_to_square (image : NDArr) (landmarks_df : Option (List Landmark))
    (padding_percent : ℚ) : Except PyErr (Option (NDArr × (ℤ × ℤ × ℤ × ℤ))) :=
  match calculate_face_bbox landmarks_df padding_percent with
  | none => .ok none
  | some (x, y, w, h) =>
    match image.shape with
    | imgH :: imgW :: _ =>
      let center_x := x + pyFloorDiv w 2
      let center_y := y + pyFloorDiv h 2
      let crop_size := max w h
      let half_size := pyFloorDiv crop_size 2
      let x1 := max 0 (center_x - half_size)
      let y1 := max 0 (center_y - half_size)
      let x2 := min (imgW : ℤ) (center_x + half_size)
      let y2 := min (imgH : ℤ) (center_y + half_size)
      let x1a := if x2 - x1 < crop_size then max 0 (x2 - crop_size) else x1
      let y1a := if y2 - y1 < crop_size then max 0 (y2 - crop_size) else y1
      match npSlice image y1a y2 x1a x2 with
      | .error e => .error e
      | .ok c => .ok (some (c, (x1a, y1a, x2 - x1a, y2 - y1a)))
    | _ => .error .indexError

open Classical in
/-- `np.arctan2`: two-argument arctangent with NumPy quadrant conventions. -/
noncomputable def np_arctan2 (y x : ℝ) : ℝ :=
  if 0 < x then Real.arctan (y / x)
  else if x < 0 then
    (if 0 ≤ y then Real.arctan (y / x) + Real.pi else Real.arctan (y / x) - Real.pi)
  else if 0 < y then Real.pi / 2
  else if y < 0 then -(Real.pi / 2)
  else 0

/-- `np.degrees`. -/
noncomputable def np_degrees (r : ℝ) : ℝ := r * 180 / Real.pi

/-- `ImageProcessor.calculate_rotation_angle`.  The `.iloc[0]` access on an
empty row selection raises `IndexError` (the spec taxonomy calls this
condition `MissingLandmarkError`). -/
noncomputable def calculate_rotation_angle (landmarks_df : Option (List Landmark)) :
    Except PyErr ℝ :=
  match landmarks_df with
  | none => .ok 0
  | some df =>
    if df.isEmpty then .ok 0
    else
      match df.find? (fun r => r.index == 33), df.find? (fun r => r.index == 263) with
      | some left_eye, some right_eye =>
        .ok (np_degrees (np_arctan2 ((right_eye.y : ℝ) - (left_eye.y : ℝ))
          ((right_eye.x : ℝ) - (left_eye.x : ℝ))))
      | _, _ => .error .indexError

/-- The six entries of the 2x3 affine matrix `cv2.getRotationMatrix2D` builds. -/
structure Affine2 where
  a : ℝ
  b : ℝ
  c : ℝ
  d : ℝ
  e : ℝ
  f : ℝ

/-- `cv2.getRotationMatrix2D(center, angle, scale)` (angle in degrees,
counterclockwise). -/
noncomputable def getRotationMatrix2D (center : ℕ × ℕ) (angle scale : ℝ) : Affine2 :=
  let th := angle * Real.pi / 180
  let al := scale * Real.cos th
  let be := scale * Real.sin th
  ⟨al, be, (1 - al) * (center.1 : ℝ) - be * (center.2 : ℝ),
   -be, al, be * (center.1 : ℝ) + (1 - al) * (center.2 : ℝ)⟩

/-- A landmark row after the affine update (floating-point coordinates). -/
structure LandmarkR where
  index : ℤ
  x : ℝ
  y : ℝ

/-- `cv2.warpAffine(image, M, (w, h), flags=cv2.INTER_LANCZOS4)`, kept
symbolic: the record holds the source array, the matrix and the output size;
resampled pixel values are external to this model. -/
structure WarpedImage where
  src : NDArr
  m : Affine2
  dsize : ℕ × ℕ

/-- `ImageProcessor.rotate_image`.  Note the source normalizes the image
before its `None` check, so an absent image raises inside
`_convert_to_numpy` rather than reaching the sentinel return. -/
noncomputable def rotate_image (image : Option ImgInput)
    (landmarks_df : Option (List Landmark)) :
    Except PyErr (Option WarpedImage × Option (List LandmarkR)) :=
  match convert_to_numpy image with
  | .error e => .error e
  | .ok image_np =>
    match landmarks_df with
    | none => .ok (none, none)
    | some df =>
      match calculate_rotation_angle (some df) with
      | .error e => .error e
      | .ok angle =>
        match image_np.shape with
        | imgH :: imgW :: _ =>
          let m := getRotationMatrix2D (imgW / 2, imgH / 2) angle 1
          let rotated : WarpedImage := ⟨image_np, m, (imgW, imgH)⟩
          let updated := df.map (fun r =>
            (⟨r.index, m.a * (r.x : ℝ) + m.b * (r.y : ℝ) + m.c,
              m.d * (r.x : ℝ) + m.e * (r.y : ℝ) + m.f⟩ : LandmarkR))
          .ok (some rotated, some updated)
        | _ => .error .valueError

/-- Modelled from the spec: the tight min/max box of the landmark
coordinates, as integers. -/
def tightBBox (df : List Landmark) : ℤ × ℤ × ℤ × ℤ :=
  (pyInt (colMin (df.map (·.x))), pyInt (colMin (df.map (·.y))),
   pyInt (colMax (df.map (·.x)) - colMin (df.map (·.x))),
   pyInt (colMax (df.map (·.y)) - colMin (df.map (·.y))))

/-- The x component of a bounding-box result (0 when absent). -/
def bbX (b : Option (ℤ × ℤ × ℤ × ℤ)) : ℤ := (b.map (fun t => t.1)).getD 0

/-- The y component of a bounding-box result (0 when absent). -/
def bbY (b : Option (ℤ × ℤ × ℤ × ℤ)) : ℤ := (b.map (fun t => t.2.1)).getD 0

/-- The width component of a bounding-box result (0 when absent). -/
def bbW (b : Option (ℤ × ℤ × ℤ × ℤ)) : ℤ := (b.map (fun t => t.2.2.1)).getD 0

/-- The height component of a bounding-box result (0 when absent). -/
def bbH (b : Option (ℤ × ℤ × ℤ × ℤ)) : ℤ := (b.map (fun t => t.2.2.2)).getD 0

/-- Checks that a bounding-box result exists with non-negative x and y. -/
def bboxXYNonneg (b : Option (ℤ × ℤ × ℤ × ℤ)) : Bool :=
  match b with
  | none => false
  | some (x, y, _, _) => decide (0 ≤ x) && decide (0 ≤ y)

/-- Checks that a bounding-box result exists with all four components
non-negative. -/
def bboxAllNonneg (b : Option (ℤ × ℤ × ℤ × ℤ)) : Bool :=
  match b with
  | none => false
  | some (x, y, w, h) =>
    decide (0 ≤ x) && decide (0 ≤ y) && decide (0 ≤ w) && decide (0 ≤ h)

/-- The square-crop invariant: the realized bounding box lies inside the
image and its width/height equal the returned crop's column/row counts. -/
def squareCropOK (imgH imgW : ℕ) (rest : List ℕ)
    (res : Except PyErr (Option (NDArr × (ℤ × ℤ × ℤ × ℤ)))) : Bool :=
  match res with
  | .ok (some (c, (x, y, w, h))) =>
    decide (0 ≤ x) && decide (0 ≤ y) && decide (0 ≤ w) && decide (0 ≤ h) &&
      decide (x + w ≤ (imgW : ℤ)) && decide (y + h ≤ (imgH : ℤ)) &&
      (c.shape == h.toNat :: w.toNat :: rest)
  | _ => false

/-! Helper lemmas about the embedded primitives. -/

lemma pyInt_eq_floor {q : ℚ} (h : 0 ≤ q) : pyInt q = ⌊q⌋ := by
  rw [Rat.floor_def]
  exact Int.tdiv_eq_ediv (Rat.num_nonneg.mpr h) (Int.natCast_nonneg _)

lemma pyInt_nonneg {q : ℚ} (h : 0 ≤ q) : 0 ≤ pyInt q := by
  rw [pyInt_eq_floor h]
  exact Int.le_floor.mpr (by exact_mod_cast h)

lemma pyInt_le {q : ℚ} (h : 0 ≤ q) : (pyInt q : ℚ) ≤ q := by
  rw [pyInt_eq_floor h]
  exact Int.floor_le q

lemma lt_pyInt_add_one {q : ℚ} (h : 0 ≤ q) : q < pyInt q + 1 := by
  rw [pyInt_eq_floor h]
  exact_mod_cast Int.lt_floor_add_one q

lemma pyFloorDiv_two (a : ℤ) : pyFloorDiv a 2 = a / 2 :=
  Int.fdiv_eq_ediv a (by norm_num)

lemma pyInt_zero : pyInt 0 = 0 := by
  simp [pyInt]

lemma pyInt_one : pyInt 1 = 1 := by
  simp [pyInt]

lemma pyInt_ofNat (n : ℕ) [n.AtLeastTwo] :
    pyInt (OfNat.ofNat n) = OfNat.ofNat n := by
  simp [pyInt]

lemma pyInt_neg (q : ℚ) : pyInt (-q) = -pyInt q := by
  simp [pyInt, Rat.num_neg_eq_neg_num, Rat.den_neg_eq_den, Int.neg_tdiv]

lemma foldl_min_le_init : ∀ (l : List ℚ) (a : ℚ), List.foldl min a l ≤ a := by
  intro l
  induction l with
  | nil => intro a; simp
  | cons b t ih =>
    intro a
    calc List.foldl min a (b :: t) = List.foldl min (min a b) t := rfl
    _ ≤ min a b := ih (min a b)
    _ ≤ a := min_le_left a b

lemma foldl_min_le_mem : ∀ (l : List ℚ) (a b : ℚ), b ∈ l → List.foldl min a l ≤ b := by
  intro l
  induction l with
  | nil => intro a b hb; simp at hb
  | cons c t ih =>
    intro a b hb
    rcases List.mem_cons.mp hb with h | h
    · subst h
      calc List.foldl min a (b :: t) = List.foldl min (min a b) t := rfl
      _ ≤ min a b := foldl_min_le_init t (min a b)
      _ ≤ b := min_le_right a b
    · exact ih (min a c) b h

lemma foldl_min_nonneg : ∀ (l : List ℚ) (a : ℚ), 0 ≤ a → (∀ b ∈ l, 0 ≤ b) →
    0 ≤ List.foldl min a l := by
  intro l
  induction l with
  | nil => intro a ha _; simpa using ha
  | cons c t ih =>
    intro a ha hb
    have hc : 0 ≤ c := hb c (by simp)
    exact ih (min a c) (le_min ha hc) (fun b hbt => hb b (by simp [hbt]))

lemma init_le_foldl_max : ∀ (l : List ℚ) (a : ℚ), a ≤ List.foldl max a l := by
  intro l
  induction l with
  | nil => intro a; simp
  | cons b t ih =>
    intro a
    calc a ≤ max a b := le_max_left a b
    _ ≤ List.foldl max (max a b) t := ih (max a b)
    _ = List.foldl max a (b :: t) := rfl

lemma mem_le_foldl_max : ∀ (l : List ℚ) (a b : ℚ), b ∈ l → b ≤ List.foldl max a l := by
  intro l
  induction l with
  | nil => intro a b hb; simp at hb
  | cons c t ih =>
    intro a b hb
    rcases List.mem_cons.mp hb with h | h
    · subst h
      calc b ≤ max a b := le_max_right a b
      _ ≤ List.foldl max (max a b) t := init_le_foldl_max t (max a b)
      _ = List.foldl max a (b :: t) := rfl
    · exact ih (max a c) b h

lemma colMin_le {l : List ℚ} {q : ℚ} (h : q ∈ l) : colMin l ≤ q := by
  match l with
  | [] => simp at h
  | c :: t =>
    rcases List.mem_cons.mp h with h1 | h1
    · subst h1; exact foldl_min_le_init t q
    · exact foldl_min_le_mem t c q h1

lemma le_colMax {l : List ℚ} {q : ℚ} (h : q ∈ l) : q ≤ colMax l := by
  match l with
  | [] => simp at h
  | c :: t =>
    rcases List.mem_cons.mp h with h1 | h1
    · subst h1; exact init_le_foldl_max t q
    · exact mem_le_foldl_max t c q h1

lemma colMin_nonneg {l : List ℚ} (h : ∀ q ∈ l, 0 ≤ q) : 0 ≤ colMin l := by
  match l with
  | [] => simp [colMin]
  | c :: t =>
    exact foldl_min_nonneg t c (h c (by simp)) (fun b hb => h b (by simp [hb]))

lemma colMin_le_colMax {l : List ℚ} (h : l ≠ []) : colMin l ≤ colMax l := by
  match l with
  | [] => exact absurd rfl h
  | c :: t => exact le_trans (foldl_min_le_init t c) (init_le_foldl_max t c)

lemma sliceIdx_eq_toNat {n : ℕ} {i : ℤ} (h0 : 0 ≤ i) (hn : i ≤ (n : ℤ)) :
    sliceIdx n i = i.toNat := by
  unfold sliceIdx
  rw [if_neg (by omega)]
  omega

lemma npSlice_ok (dt : DType) (d : List ℚ) (hh ww : ℕ) (rest : List ℕ)
    (r1 r2 c1 c2 : ℤ) :
    ∃ c : NDArr, npSlice ⟨hh :: ww :: rest, dt, d⟩ r1 r2 c1 c2 = .ok c ∧
      c.shape = (sliceIdx hh r2 - sliceIdx hh r1) ::
        (sliceIdx ww c2 - sliceIdx ww c1) :: rest :=
  ⟨_, rfl, rfl⟩

lemma bbox_eq (r0 : Landmark) (tl : List Landmark) (p : ℚ) :
    calculate_face_bbox (some (r0 :: tl)) p =
      some
        (pyInt (max 0 (colMin ((r0 :: tl).map (·.x)) -
            (colMax ((r0 :: tl).map (·.x)) - colMin ((r0 :: tl).map (·.x))) * p)),
         pyInt (max 0 (colMin ((r0 :: tl).map (·.y)) -
            (colMax ((r0 :: tl).map (·.y)) - colMin ((r0 :: tl).map (·.y))) * p)),
         pyInt (colMax ((r0 :: tl).map (·.x)) +
            (colMax ((r0 :: tl).map (·.x)) - colMin ((r0 :: tl).map (·.x))) * p -
            max 0 (colMin ((r0 :: tl).map (·.x)) -
              (colMax ((r0 :: tl).map (·.x)) - colMin ((r0 :: tl).map (·.x))) * p)),
         pyInt (colMax ((r0 :: tl).map (·.y)) +
            (colMax ((r0 :: tl).map (·.y)) - colMin ((r0 :: tl).map (·.y))) * p -
            max 0 (colMin ((r0 :: tl).map (·.y)) -
              (colMax ((r0 :: tl).map (·.y)) - colMin ((r0 :: tl).map (·.y))) * p))) := rfl

lemma bboxXY_nonneg (r0 : Landmark) (tl : List Landmark) (p : ℚ) :
    bboxXYNonneg (calculate_face_bbox (some (r0 :: tl)) p) = true := by
  rw [bbox_eq]
  simp only [bboxXYNonneg, Bool.and_eq_true, decide_eq_true_eq]
  exact ⟨pyInt_nonneg (le_max_left _ _), pyInt_nonneg (le_max_left _ _)⟩

lemma convert_uint8_ne4 {hh ww c : ℕ} (d : List ℚ) (hc : c ≠ 4) :
    convert_to_numpy (some (.arr ⟨[hh, ww, c], .uint8, d⟩)) =
      .ok ⟨[hh, ww, c], .uint8, d⟩ := by
  simp [convert_to_numpy, finishConvert, Except.bind, hc]

/-- C4 amended: `_convert_to_numpy` performs no channel-count validation and
never raises an `UnsupportedShapeError` (no such check exists in the code).
A `(h, w, c)` uint8 array with any channel count other than 4 — including
counts outside {1, 3, 4} such as 2 — is returned entirely unchanged. -/
theorem claimC4 (hh ww c : ℕ) (d : List ℚ) (hc : c ≠ 4) :
    convert_to_numpy (some (.arr ⟨[hh, ww, c], .uint8, d⟩)) =
      .ok ⟨[hh, ww, c], .uint8, d⟩ :=
  convert_uint8_ne4 d hc

theorem claimC4_witness :
    convert_to_numpy (some (.arr ⟨[1, 1, 2], .uint8, [5, 7]⟩)) =
      .ok ⟨[1, 1, 2], .uint8, [5, 7]⟩ :=
  claimC4 1 1 2 [5, 7] (by decide)

/-- C4 counterexample: a 2-channel uint8 array — channel count not in
{1, 3, 4} — does not raise; it is returned unchanged with 2 channels. -/
theorem claimC4_cex :
    convert_to_numpy (some (.arr ⟨[2, 3, 2], .uint8, [1, 2]⟩)) =
      .ok ⟨[2, 3, 2], .uint8, [1, 2]⟩ := rfl

/-- C6 amended: `rotate_image` returns the `(None, None)` sentinel exactly
when the image normalizes successfully and the landmark table is absent; an
absent image instead raises `AttributeError` inside `_convert_to_numpy`,
because normalization precedes the `None` check (which is dead code for the
image argument). -/
theorem claimC6 :
    (∀ lm : Option (List Landmark), rotate_image none lm = .error .attributeError) ∧
    (∀ (i : ImgInput) (r : NDArr), convert_to_numpy (some i) = .ok r →
      rotate_image (some i) none = .ok (none, none)) := by
  constructor
  · intro lm; rfl
  · intro i r h
    unfold rotate_image
    rw [h]

theorem claimC6_witness :
    rotate_image none (some []) = .error .attributeError ∧
    rotate_image (some (.arr ⟨[1, 1, 3], .uint8, [0, 0, 0]⟩)) none = .ok (none, none) :=
  ⟨claimC6.1 (some []), claimC6.2 _ ⟨[1, 1, 3], .uint8, [0, 0, 0]⟩
    (convert_uint8_ne4 _ (by decide))⟩

/-- C6 counterexample: with an absent image and a present landmark table,
`rotate_image` raises `AttributeError` (from `None.shape` inside
normalization) instead of returning the `(None, None)` sentinel. -/
theorem claimC6_cex :
    rotate_image none (some [⟨33, 0, 0⟩]) = .error .attributeError ∧
    (Except.error .attributeError :
      Except PyErr (Option WarpedImage × Option (List LandmarkR))) ≠ .ok (none, none) :=
  ⟨rfl, by simp⟩

/-- C8 amended: the x and y of every derived bounding box are clamped
non-negative for every padding value; width and height are non-negative
whenever the padding is non-negative and the landmark coordinates are
non-negative, but negative padding can (and does) produce negative width
and height. -/
theorem claimC8 (df : List Landmark) (p : ℚ) (hne : df ≠ []) :
    bboxXYNonneg (calculate_face_bbox (some df) p) = true ∧
    (0 ≤ p → (∀ r ∈ df, 0 ≤ r.x ∧ 0 ≤ r.y) →
      bboxAllNonneg (calculate_face_bbox (some df) p) = true) := by
  obtain ⟨r0, tl, rfl⟩ := List.exists_cons_of_ne_nil hne
  constructor
  · exact bboxXY_nonneg r0 tl p
  · intro hp hco
    rw [bbox_eq]
    have hxnn : ∀ q ∈ (r0 :: tl).map (·.x), 0 ≤ q := by
      intro q hq
      obtain ⟨r, hr, rfl⟩ := List.mem_map.mp hq
      exact (hco r hr).1
    have hynn : ∀ q ∈ (r0 :: tl).map (·.y), 0 ≤ q := by
      intro q hq
      obtain ⟨r, hr, rfl⟩ := List.mem_map.mp hq
      exact (hco r hr).2
    have hmmx : colMin ((r0 :: tl).map (·.x)) ≤ colMax ((r0 :: tl).map (·.x)) :=
      colMin_le_colMax (by simp)
    have hmmy : colMin ((r0 :: tl).map (·.y)) ≤ colMax ((r0 :: tl).map (·.y)) :=
      colMin_le_colMax (by simp)
    have hpx : 0 ≤ (colMax ((r0 :: tl).map (·.x)) - colMin ((r0 :: tl).map (·.x))) * p :=
      mul_nonneg (by linarith) hp
    have hpy : 0 ≤ (colMax ((r0 :: tl).map (·.y)) - colMin ((r0 :: tl).map (·.y))) * p :=
      mul_nonneg (by linarith) hp
    have hmx0 : 0 ≤ colMin ((r0 :: tl).map (·.x)) := colMin_nonneg hxnn
    have hmy0 : 0 ≤ colMin ((r0 :: tl).map (·.y)) := colMin_nonneg hynn
    simp only [bboxAllNonneg, Bool.and_eq_true, decide_eq_true_eq]
    refine ⟨⟨⟨pyInt_nonneg (le_max_left _ _), pyInt_nonneg (le_max_left _ _)⟩, ?_⟩, ?_⟩
    · refine pyInt_nonneg (sub_nonneg.mpr (max_le ?_ ?_)) <;> linarith
    · refine pyInt_nonneg (sub_nonneg.mpr (max_le ?_ ?_)) <;> linarith

theorem claimC8_witness :
    bboxXYNonneg (calculate_face_bbox (some [⟨33, 1, 2⟩]) 3) = true ∧
    bboxAllNonneg (calculate_face_bbox (some [⟨33, 1, 2⟩]) 3) = true := by
  have h := claimC8 [⟨33, 1, 2⟩] 3 (by decide)
  exact ⟨h.1, h.2 (by norm_num) (by decide)⟩

/-- C8 counterexample: with padding −1 (negative padding is allowed), the
bounding box of landmarks at (0,0) and (10,10) is (10, 10, −10, −10): its
width and height are negative, so not all four components are non-negative. -/
theorem claimC8_cex :
    calculate_face_bbox (some [⟨33, 0, 0⟩, ⟨263, 10, 10⟩]) (-1) =
      some (10, 10, -10, -10) ∧
    bboxAllNonneg (calculate_face_bbox (some [⟨33, 0, 0⟩, ⟨263, 10, 10⟩]) (-1)) = false := by
  have hbb : calculate_face_bbox (some [⟨33, 0, 0⟩, ⟨263, 10, 10⟩]) (-1) =
      some (10, 10, -10, -10) := by
    rw [bbox_eq]
    norm_num [colMin, colMax, List.map, List.foldl, min_def, max_def,
      pyInt_neg, pyInt_zero] <;> decide
  exact ⟨hbb, by rw [hbb]; rfl⟩

/-- C7 counterexample: a bounding box of size 13x13 on a 4x4 image does not
raise any array-bounds failure in `crop_face`; NumPy slicing silently clamps
and the call returns a truncated 4x4 crop. -/
theorem claimC7_cex :
    (crop_face (some (.arr ⟨[4, 4, 3], .uint8, []⟩))
        (some [⟨33, 2, 2⟩, ⟨263, 3, 3⟩]) 10).map
      (Option.map (fun c => c.shape)) = .ok (some [4, 4, 3]) ∧ (4 : ℤ) < 13 := by
  have hbb : calculate_face_bbox (some [⟨33, 2, 2⟩, ⟨263, 3, 3⟩]) 10 =
      some (0, 0, 13, 13) := by
    rw [bbox_eq]
    norm_num [colMin, colMax, List.map, List.foldl, min_def, max_def,
      pyInt_neg, pyInt_zero] <;> decide
  constructor
  · unfold crop_face
    rw [convert_uint8_ne4 ([] : List ℚ) (by decide), hbb]
    rfl
  · decide

/-- C1 counterexample: on a 10x10 image (at least cropSize = 10 in both
dimensions) with a bounding box hugging the left edge, the returned crop is
10x5, not 10x10: the code pulls the left edge back when the right edge
clamps, but never pushes the right edge out when the left edge clamps. -/
theorem claimC1_cex :
    (crop_face_to_square ⟨[10, 10, 3], .uint8, []⟩
        (some [⟨33, 0, 0⟩, ⟨263, 0, 10⟩]) 0).map
      (Option.map (fun r => (r.1.shape, r.2))) =
      .ok (some ([10, 5, 3], (0, 0, 5, 10))) ∧ (5 : ℤ) ≠ 10 := by
  have hbb : calculate_face_bbox (some [⟨33, 0, 0⟩, ⟨263, 0, 10⟩]) 0 =
      some (0, 0, 0, 10) := by
    rw [bbox_eq]
    norm_num [colMin, colMax, List.map, List.foldl, min_def, max_def,
      pyInt_neg, pyInt_zero] <;> decide
  constructor
  · unfold crop_face_to_square
    rw [hbb]
    rfl
  · decide

/-- C10 counterexample: with negative padding the derived box has negative
width/height; `crop_face_to_square` then returns bounding box
(10, 10, −10, −10) while the pixel crop is 0x0, so the box does not match
the crop's dimensions. -/
theorem claimC10_cex :
    squareCropOK 5 5 [3] (crop_face_to_square ⟨[5, 5, 3], .uint8, []⟩
      (some [⟨33, 0, 0⟩, ⟨263, 10, 10⟩]) (-1)) = false ∧
    (crop_face_to_square ⟨[5, 5, 3], .uint8, []⟩
        (some [⟨33, 0, 0⟩, ⟨263, 10, 10⟩]) (-1)).map
      (Option.map (fun r => (r.1.shape, r.2))) =
      .ok (some ([0, 0, 3], (10, 10, -10, -10))) := by
  have hbb : calculate_face_bbox (some [⟨33, 0, 0⟩, ⟨263, 10, 10⟩]) (-1) =
      some (10, 10, -10, -10) := by
    rw [bbox_eq]
    norm_num [colMin, colMax, List.map, List.foldl, min_def, max_def,
      pyInt_neg, pyInt_zero] <;> decide
  constructor
  · unfold crop_face_to_square
    rw [hbb]
    rfl
  · unfold crop_face_to_square
    rw [hbb]
    rfl

/-! Lemmas supporting the bounding-box growth and rotation-angle claims. -/

lemma pyInt_growth {e t : ℚ} (he : 0 ≤ e) (ht : 0 ≤ t) :
    |((pyInt (e + t) : ℚ) - ((pyInt e : ℚ) + t))| ≤ 1 := by
  have h1 : 0 ≤ e + t := by linarith
  have hA := pyInt_le h1
  have hB := lt_pyInt_add_one h1
  have hC := pyInt_le he
  have hD := lt_pyInt_add_one he
  rw [abs_le]
  constructor <;> linarith

lemma bbox_growth_dim {mn mx p : ℚ} (hp : 0 ≤ p) (hm : mn ≤ mx)
    (hnc : p * (mx - mn) ≤ mn) :
    |((pyInt (mx + (mx - mn) * p - max 0 (mn - (mx - mn) * p)) : ℚ) -
      ((pyInt (mx + (mx - mn) * 0 - max 0 (mn - (mx - mn) * 0)) : ℚ) +
        2 * p * (mx - mn)))| ≤ 1 := by
  have hex : 0 ≤ mx - mn := by linarith
  have hpad : 0 ≤ (mx - mn) * p := mul_nonneg hex hp
  have hclamp : 0 ≤ mn - (mx - mn) * p := by
    have h := hnc
    rw [mul_comm] at h
    linarith
  have hmn0 : 0 ≤ mn := by linarith
  rw [mul_zero, sub_zero, add_zero, max_eq_right hmn0, max_eq_right hclamp]
  have harg : mx + (mx - mn) * p - (mn - (mx - mn) * p) =
      (mx - mn) + 2 * p * (mx - mn) := by ring
  rw [harg]
  exact pyInt_growth hex (by positivity)

/-- C2: `calculate_face_bbox` with padding 0 on a table of non-negative
coordinates is exactly the (integer-truncated) tight min/max box; with
non-negative padding and no left/top clamping each dimension grows by
`2 x padding x extent` within ±1; the left/top are clamped to be >= 0 for
every padding; and neither the right edge (x + w) nor the bottom edge
(y + h) is clamped to any image bound (for every bound some table's box
exceeds it in both coordinates). -/
theorem claimC2 (df : List Landmark) (hne : df ≠ []) :
    ((∀ r ∈ df, 0 ≤ r.x ∧ 0 ≤ r.y) →
      calculate_face_bbox (some df) 0 = some (tightBBox df)) ∧
    (∀ p : ℚ, 0 ≤ p →
      p * (colMax (df.map (·.x)) - colMin (df.map (·.x))) ≤ colMin (df.map (·.x)) →
      p * (colMax (df.map (·.y)) - colMin (df.map (·.y))) ≤ colMin (df.map (·.y)) →
      |((bbW (calculate_face_bbox (some df) p) : ℚ) -
        ((bbW (calculate_face_bbox (some df) 0) : ℚ) +
          2 * p * (colMax (df.map (·.x)) - colMin (df.map (·.x)))))| ≤ 1 ∧
      |((bbH (calculate_face_bbox (some df) p) : ℚ) -
        ((bbH (calculate_face_bbox (some df) 0) : ℚ) +
          2 * p * (colMax (df.map (·.y)) - colMin (df.map (·.y)))))| ≤ 1) ∧
    (∀ p : ℚ, bboxXYNonneg (calculate_face_bbox (some df) p) = true) ∧
    (∀ bound : ℚ, ∃ df2 : List Landmark, df2 ≠ [] ∧
      bound < ((bbX (calculate_face_bbox (some df2) 0) +
        bbW (calculate_face_bbox (some df2) 0) : ℤ) : ℚ) ∧
      bound < ((bbY (calculate_face_bbox (some df2) 0) +
        bbH (calculate_face_bbox (some df2) 0) : ℤ) : ℚ)) := by
  obtain ⟨r0, tl, rfl⟩ := List.exists_cons_of_ne_nil hne
  have hxs : ((r0 :: tl).map (·.x)) ≠ [] := by simp
  have hys : ((r0 :: tl).map (·.y)) ≠ [] := by simp
  have hmmx := colMin_le_colMax hxs
  have hmmy := colMin_le_colMax hys
  refine ⟨?_, ?_, ?_, ?_⟩
  · intro hco
    have hmx0 : 0 ≤ colMin ((r0 :: tl).map (·.x)) := by
      refine colMin_nonneg ?_
      intro q hq
      obtain ⟨r, hr, rfl⟩ := List.mem_map.mp hq
      exact (hco r hr).1
    have hmy0 : 0 ≤ colMin ((r0 :: tl).map (·.y)) := by
      refine colMin_nonneg ?_
      intro q hq
      obtain ⟨r, hr, rfl⟩ := List.mem_map.mp hq
      exact (hco r hr).2
    rw [bbox_eq]
    simp only [tightBBox, mul_zero, sub_zero, add_zero]
    rw [max_eq_right hmx0, max_eq_right hmy0]
  · intro p hp hnx hny
    rw [bbox_eq r0 tl p, bbox_eq r0 tl 0]
    simp only [bbW, bbH, Option.map_some', Option.getD_some]
    exact ⟨bbox_growth_dim hp hmmx hnx, bbox_growth_dim hp hmmy hny⟩
  · intro p
    exact bboxXY_nonneg r0 tl p
  · intro bound
    have hq0 : 0 ≤ max bound 0 + 1 := by positivity
    have hkey : bound < ((⌊(max bound 0 + 1 : ℚ)⌋ : ℤ) : ℚ) := by
      have h1 := Int.lt_floor_add_one (max bound 0)
      have h2 : ⌊max bound 0 + (1 : ℚ)⌋ = ⌊max bound 0⌋ + 1 := by
        exact_mod_cast Int.floor_add_one (max bound 0)
      rw [h2]
      push_cast
      have h3 : bound ≤ max bound 0 := le_max_left bound 0
      linarith
    refine ⟨[⟨0, max bound 0 + 1, max bound 0 + 1⟩], by simp, ?_, ?_⟩
    all_goals
      rw [bbox_eq]
      simp only [bbX, bbY, bbW, bbH, Option.map_some', Option.getD_some,
        List.map_cons, List.map_nil]
      simp only [colMin, colMax, List.foldl, sub_self, zero_mul, mul_zero,
        sub_zero, add_zero]
      rw [max_eq_right hq0, sub_self, pyInt_zero, add_zero, pyInt_eq_floor hq0]
      exact hkey

theorem claimC2_witness :
    calculate_face_bbox (some [⟨33, 10, 20⟩, ⟨263, 18, 30⟩]) 0 =
      some (tightBBox [⟨33, 10, 20⟩, ⟨263, 18, 30⟩]) ∧
    |((bbW (calculate_face_bbox (some [⟨33, 10, 20⟩, ⟨263, 18, 30⟩]) (1/2)) : ℚ) -
      ((bbW (calculate_face_bbox (some [⟨33, 10, 20⟩, ⟨263, 18, 30⟩]) 0) : ℚ) +
        2 * (1/2) * (colMax (([⟨33, 10, 20⟩, ⟨263, 18, 30⟩] : List Landmark).map (·.x)) -
          colMin (([⟨33, 10, 20⟩, ⟨263, 18, 30⟩] : List Landmark).map (·.x)))))| ≤ 1 ∧
    bboxXYNonneg (calculate_face_bbox (some [⟨33, 10, 20⟩, ⟨263, 18, 30⟩]) (-3)) =
      true := by
  have h := claimC2 [⟨33, 10, 20⟩, ⟨263, 18, 30⟩] (by decide)
  refine ⟨h.1 (by decide), (h.2.1 (1/2) (by norm_num) ?_ ?_).1, h.2.2.1 (-3)⟩
  · norm_num [colMin, colMax, List.map, List.foldl, min_def, max_def]
  · norm_num [colMin, colMax, List.map, List.foldl, min_def, max_def]

/-- C3: `calculate_rotation_angle` fails (with the host `IndexError`, the
spec's `MissingLandmarkError`) exactly when the table is non-empty but lacks
a row with index 33 or a row with index 263; an absent or empty table yields
0.0 without error. -/
theorem claimC3 (o : Option (List Landmark)) :
    (o = none → calculate_rotation_angle o = .ok 0) ∧
    (∀ df : List Landmark, o = some df → df = [] →
      calculate_rotation_angle o = .ok 0) ∧
    (∀ df : List Landmark, o = some df → df ≠ [] →
      ((calculate_rotation_angle o = .error .indexError) ↔
        ((∀ r ∈ df, r.index ≠ 33) ∨ (∀ r ∈ df, r.index ≠ 263)))) := by
  refine ⟨?_, ?_, ?_⟩
  · rintro rfl
    rfl
  · rintro df rfl rfl
    rfl
  · rintro df rfl hne
    obtain ⟨r0, tl, rfl⟩ := List.exists_cons_of_ne_nil hne
    have h33 : ((r0 :: tl).find? (fun r => r.index == 33) = none) ↔
        ∀ r ∈ r0 :: tl, r.index ≠ 33 := by
      rw [List.find?_eq_none]
      simp
    have h263 : ((r0 :: tl).find? (fun r => r.index == 263) = none) ↔
        ∀ r ∈ r0 :: tl, r.index ≠ 263 := by
      rw [List.find?_eq_none]
      simp
    rcases hf33 : (r0 :: tl).find? (fun r => r.index == 33) with _ | el <;>
      rcases hf263 : (r0 :: tl).find? (fun r => r.index == 263) with _ | er <;>
      simp only [calculate_rotation_angle, List.isEmpty_cons, Bool.false_eq_true,
        if_false, hf33, hf263]
    · simp only [true_iff]
      exact Or.inl (h33.mp hf33)
    · simp only [true_iff]
      exact Or.inl (h33.mp hf33)
    · simp only [true_iff]
      exact Or.inr (h263.mp hf263)
    · constructor
      · intro h
        exact absurd h (by simp)
      · intro h
        rcases h with h | h
        · have hm := List.mem_of_find?_eq_some hf33
          have hp := List.find?_some hf33
          rw [beq_iff_eq] at hp
          exact absurd hp (h el hm)
        · have hm := List.mem_of_find?_eq_some hf263
          have hp := List.find?_some hf263
          rw [beq_iff_eq] at hp
          exact absurd hp (h er hm)

lemma np_arctan2_zero_pos {x : ℝ} (hx : 0 < x) : np_arctan2 0 x = 0 := by
  unfold np_arctan2
  rw [if_pos hx, zero_div, Real.arctan_zero]

lemma np_arctan2_zero_neg {x : ℝ} (hx : x < 0) : np_arctan2 0 x = Real.pi := by
  unfold np_arctan2
  rw [if_neg (by linarith), if_pos hx, if_pos le_rfl, zero_div,
    Real.arctan_zero, zero_add]

lemma np_degrees_zero : np_degrees 0 = 0 := by
  unfold np_degrees
  rw [zero_mul, zero_div]

lemma np_degrees_pi : np_degrees Real.pi = 180 := by
  unfold np_degrees
  rw [mul_comm, mul_div_assoc, div_self Real.pi_ne_zero, mul_one]

/-- C9 amended: on a table containing rows 33 and 263 whose eye landmarks
have equal y, `calculate_rotation_angle` returns 0.0 when the index-33 eye is
left of the index-263 eye in x, and 180.0 (not 0.0) when it is right of it;
exchanging the two positions therefore moves the angle between 0 and 180 (a
180-degree shift), not a sign flip. -/
theorem claimC9 (df : List Landmark) (el er : Landmark)
    (h33 : df.find? (fun r => r.index == 33) = some el)
    (h263 : df.find? (fun r => r.index == 263) = some er)
    (hy : el.y = er.y) :
    (el.x < er.x → calculate_rotation_angle (some df) = .ok 0) ∧
    (er.x < el.x → calculate_rotation_angle (some df) = .ok 180) := by
  have hne : df ≠ [] := by
    rintro rfl
    simp at h33
  obtain ⟨r0, tl, rfl⟩ := List.exists_cons_of_ne_nil hne
  have hdy : (er.y : ℝ) - (el.y : ℝ) = 0 := by
    rw [hy, sub_self]
  constructor
  · intro hlt
    have hdx : (0 : ℝ) < (er.x : ℝ) - (el.x : ℝ) := by
      rw [sub_pos]
      exact_mod_cast hlt
    simp only [calculate_rotation_angle, List.isEmpty_cons, Bool.false_eq_true,
      if_false, h33, h263]
    rw [hdy, np_arctan2_zero_pos hdx, np_degrees_zero]
  · intro hlt
    have hdx : (er.x : ℝ) - (el.x : ℝ) < 0 := by
      rw [sub_neg]
      exact_mod_cast hlt
    simp only [calculate_rotation_angle, List.isEmpty_cons, Bool.false_eq_true,
      if_false, h33, h263]
    rw [hdy, np_arctan2_zero_neg hdx, np_degrees_pi]

theorem claimC9_witness :
    calculate_rotation_angle (some [⟨33, 0, 0⟩, ⟨263, 10, 0⟩]) = .ok 0 :=
  (claimC9 [⟨33, 0, 0⟩, ⟨263, 10, 0⟩] ⟨33, 0, 0⟩ ⟨263, 10, 0⟩ rfl rfl rfl).1
    (by norm_num)

/-- C9 counterexample: the two eye landmarks are horizontally level (equal
y), but with the index-33 eye at x = 10 and the index-263 eye at x = 0 the
returned angle is 180.0, not 0.0. -/
theorem claimC9_cex :
    calculate_rotation_angle (some [⟨33, 10, 0⟩, ⟨263, 0, 0⟩]) = .ok 180 ∧
    (180 : ℝ) ≠ 0 := by
  constructor
  · have h33 : (([⟨33, 10, 0⟩, ⟨263, 0, 0⟩] : List Landmark).find?
        (fun r => r.index == 33)) = some ⟨33, 10, 0⟩ := rfl
    have h263 : (([⟨33, 10, 0⟩, ⟨263, 0, 0⟩] : List Landmark).find?
        (fun r => r.index == 263)) = some ⟨263, 0, 0⟩ := rfl
    simp only [calculate_rotation_angle, List.isEmpty_cons, Bool.false_eq_true,
      if_false, h33, h263]
    have e1 : (((⟨263, 0, 0⟩ : Landmark).y : ℝ) - ((⟨33, 10, 0⟩ : Landmark).y : ℝ)) = 0 := by
      norm_num
    have e2 : (((⟨263, 0, 0⟩ : Landmark).x : ℝ) - ((⟨33, 10, 0⟩ : Landmark).x : ℝ)) = -10 := by
      norm_num
    rw [e1, e2, np_arctan2_zero_neg (by norm_num), np_degrees_pi]
  · norm_num

/-! The square-crop geometry. -/

lemma bbox_x_nonneg {df : List Landmark} {p : ℚ} {x y w h : ℤ}
    (hbb : calculate_face_bbox (some df) p = some (x, y, w, h)) :
    0 ≤ x ∧ 0 ≤ y := by
  match df with
  | [] => simp [calculate_face_bbox] at hbb
  | r0 :: tl =>
    rw [bbox_eq] at hbb
    simp only [Option.some.injEq, Prod.mk.injEq] at hbb
    obtain ⟨hx, hy, -, -⟩ := hbb
    exact ⟨hx ▸ pyInt_nonneg (le_max_left _ _), hy ▸ pyInt_nonneg (le_max_left _ _)⟩

lemma square_side (n : ℕ) (cx s x2 x1a : ℤ) (hs : 0 ≤ s) (hn : s ≤ (n : ℤ))
    (hc : s - s / 2 ≤ cx)
    (hx2 : x2 = min (n : ℤ) (cx + s / 2))
    (hx1a : x1a = if x2 - max 0 (cx - s / 2) < s then max 0 (x2 - s)
      else max 0 (cx - s / 2)) :
    x2 - x1a = s ∧ sliceIdx n x2 - sliceIdx n x1a = s.toNat := by
  have hx2s : s ≤ x2 := by omega
  have key : x2 - x1a = s ∧ 0 ≤ x1a := by
    rcases lt_or_ge (x2 - max 0 (cx - s / 2)) s with hcond | hcond
    · rw [hx1a, if_pos hcond]
      omega
    · rw [hx1a, if_neg (not_lt.mpr hcond)]
      omega
  have hx20 : 0 ≤ x2 := by omega
  have hx2n : x2 ≤ (n : ℤ) := by omega
  refine ⟨key.1, ?_⟩
  rw [sliceIdx_eq_toNat hx20 hx2n, sliceIdx_eq_toNat key.2 (by omega)]
  omega

lemma square_bounds (n : ℕ) (cx s x2 x1a : ℤ) (hs : 0 ≤ s) (hcx : 0 ≤ cx)
    (hx2 : x2 = min (n : ℤ) (cx + s / 2))
    (hx1a : x1a = if x2 - max 0 (cx - s / 2) < s then max 0 (x2 - s)
      else max 0 (cx - s / 2)) :
    0 ≤ x1a ∧ 0 ≤ x2 - x1a ∧ x2 ≤ (n : ℤ) ∧
      sliceIdx n x2 - sliceIdx n x1a = (x2 - x1a).toNat := by
  have hx20 : 0 ≤ x2 := by omega
  have key : 0 ≤ x1a ∧ x1a ≤ x2 := by
    rcases lt_or_ge (x2 - max 0 (cx - s / 2)) s with hcond | hcond
    · rw [hx1a, if_pos hcond]
      exact ⟨le_max_left _ _, by omega⟩
    · rw [hx1a, if_neg (not_lt.mpr hcond)]
      exact ⟨le_max_left _ _, by omega⟩
  have hx2n : x2 ≤ (n : ℤ) := by omega
  refine ⟨key.1, by omega, hx2n, ?_⟩
  rw [sliceIdx_eq_toNat hx20 hx2n, sliceIdx_eq_toNat key.1 (le_trans key.2 hx2n)]
  omega

/-- C1 amended: on an image at least cropSize = max(w, h) in both dimensions,
`crop_face_to_square` returns an exactly cropSize x cropSize crop whenever the
box center is at least `cropSize - cropSize // 2` from the left and the top
edge (this always holds when only the right/bottom edge clamps, which the
code compensates by pulling the opposite edge back); when the centered square
overruns the left or top edge the crop comes out narrower, since that
direction is never compensated. -/
theorem claimC1 (imgH imgW : ℕ) (rest : List ℕ) (dt : DType) (d : List ℚ)
    (lm : List Landmark) (p : ℚ) (x y w h : ℤ)
    (hbb : calculate_face_bbox (some lm) p = some (x, y, w, h))
    (hs : 0 ≤ max w h)
    (hW : max w h ≤ (imgW : ℤ)) (hH : max w h ≤ (imgH : ℤ))
    (hcx : max w h - pyFloorDiv (max w h) 2 ≤ x + pyFloorDiv w 2)
    (hcy : max w h - pyFloorDiv (max w h) 2 ≤ y + pyFloorDiv h 2) :
    (crop_face_to_square ⟨imgH :: imgW :: rest, dt, d⟩ (some lm) p).map
      (Option.map (fun r => (r.1.shape, r.2.2.2.1, r.2.2.2.2))) =
      .ok (some ((max w h).toNat :: (max w h).toNat :: rest,
        max w h, max w h)) := by
  simp only [pyFloorDiv_two] at hcx hcy
  simp only [crop_face_to_square, hbb, npSlice, pyFloorDiv_two, Except.map,
    Option.map]
  obtain ⟨hdx, hsx⟩ :=
    square_side imgW (x + w / 2) (max w h) _ _ hs hW hcx rfl rfl
  obtain ⟨hdy, hsy⟩ :=
    square_side imgH (y + h / 2) (max w h) _ _ hs hH hcy rfl rfl
  simp only [Except.ok.injEq, Option.some.injEq, Prod.mk.injEq, List.cons.injEq]
  exact ⟨⟨hsy, hsx, trivial⟩, hdx, hdy⟩

theorem claimC1_witness :
    (crop_face_to_square ⟨[20, 20, 3], .uint8, []⟩
        (some [⟨33, 5, 5⟩, ⟨263, 9, 11⟩]) 0).map
      (Option.map (fun r => (r.1.shape, r.2.2.2.1, r.2.2.2.2))) =
      .ok (some ([6, 6, 3], 6, 6)) := by
  have hbb : calculate_face_bbox (some [⟨33, 5, 5⟩, ⟨263, 9, 11⟩]) 0 =
      some (5, 5, 4, 6) := by
    rw [bbox_eq]
    norm_num [colMin, colMax, List.map, List.foldl, min_def, max_def] <;> decide
  have h := claimC1 20 20 [3] .uint8 [] [⟨33, 5, 5⟩, ⟨263, 9, 11⟩] 0 5 5 4 6 hbb
    (by decide) (by decide) (by decide) (by decide) (by decide)
  exact h.trans (by rfl)

/-- C10 amended: whenever the derived bounding box has non-negative width and
height, the box returned by `crop_face_to_square` lies entirely within the
image (x >= 0, y >= 0, x + w <= width, y + h <= height) and its width/height
equal the returned crop's column/row counts; with negative padding the
derived box can have negative width/height and the invariant fails. -/
theorem claimC10 (imgH imgW : ℕ) (rest : List ℕ) (dt : DType) (d : List ℚ)
    (lm : List Landmark) (p : ℚ) (x y w h : ℤ)
    (hbb : calculate_face_bbox (some lm) p = some (x, y, w, h))
    (hw : 0 ≤ w) (hh : 0 ≤ h) :
    squareCropOK imgH imgW rest
      (crop_face_to_square ⟨imgH :: imgW :: rest, dt, d⟩ (some lm) p) = true := by
  obtain ⟨hx0, hy0⟩ := bbox_x_nonneg hbb
  have hs : 0 ≤ max w h := le_trans hw (le_max_left w h)
  simp only [crop_face_to_square, hbb, npSlice, pyFloorDiv_two, squareCropOK]
  obtain ⟨ha1, ha2, ha3, ha4⟩ :=
    square_bounds imgW (x + w / 2) (max w h) _ _ hs (by omega) rfl rfl
  obtain ⟨hb1, hb2, hb3, hb4⟩ :=
    square_bounds imgH (y + h / 2) (max w h) _ _ hs (by omega) rfl rfl
  simp only [Bool.and_eq_true, decide_eq_true_eq, beq_iff_eq, List.cons.injEq]
  refine ⟨⟨⟨⟨⟨⟨ha1, hb1⟩, ha2⟩, hb2⟩, by omega⟩, by omega⟩, hb4, ha4, trivial⟩

theorem claimC10_witness :
    squareCropOK 20 20 [3] (crop_face_to_square ⟨[20, 20, 3], .uint8, []⟩
      (some [⟨33, 5, 5⟩, ⟨263, 9, 11⟩]) 0) = true := by
  have hbb : calculate_face_bbox (some [⟨33, 5, 5⟩, ⟨263, 9, 11⟩]) 0 =
      some (5, 5, 4, 6) := by
    rw [bbox_eq]
    norm_num [colMin, colMax, List.map, List.foldl, min_def, max_def] <;> decide
  exact claimC10 20 20 [3] .uint8 [] [⟨33, 5, 5⟩, ⟨263, 9, 11⟩] 0 5 5 4 6 hbb
    (by decide) (by decide)

/-- C7 amended: `crop_face` never raises for an oversized box; NumPy basic
slicing silently clamps the slice to the image, so a box extending past the
right and bottom edges yields a truncated crop of
`(height - y) x (width - x)` pixels — strictly smaller than the requested
h x w — with no host array-bounds failure. -/
theorem claimC7 (imgH imgW : ℕ) (d : List ℚ) (lm : List Landmark) (p : ℚ)
    (x y w h : ℤ)
    (hbb : calculate_face_bbox (some lm) p = some (x, y, w, h))
    (hxW : x ≤ (imgW : ℤ)) (hyH : y ≤ (imgH : ℤ))
    (hw : (imgW : ℤ) < x + w) (hh : (imgH : ℤ) < y + h) :
    (crop_face (some (.arr ⟨[imgH, imgW, 3], .uint8, d⟩)) (some lm) p).map
      (Option.map (fun c => c.shape)) =
      .ok (some [imgH - y.toNat, imgW - x.toNat, 3]) ∧
    ((imgH - y.toNat : ℕ) : ℤ) < h ∧ ((imgW - x.toNat : ℕ) : ℤ) < w := by
  obtain ⟨hx0, hy0⟩ := bbox_x_nonneg hbb
  have hconv := @convert_uint8_ne4 imgH imgW 3 d (by norm_num)
  refine ⟨?_, by omega, by omega⟩
  simp only [crop_face, hconv, hbb, npSlice, Except.map, Option.map]
  have hy2 : sliceIdx imgH (y + h) = imgH := by
    unfold sliceIdx
    rw [if_neg (by omega)]
    omega
  have hx2 : sliceIdx imgW (x + w) = imgW := by
    unfold sliceIdx
    rw [if_neg (by omega)]
    omega
  rw [hy2, hx2, sliceIdx_eq_toNat hy0 hyH, sliceIdx_eq_toNat hx0 hxW]

theorem claimC7_witness :
    (crop_face (some (.arr ⟨[4, 4, 3], .uint8, [7]⟩))
        (some [⟨33, 2, 2⟩, ⟨263, 3, 3⟩]) 10).map
      (Option.map (fun c => c.shape)) = .ok (some [4, 4, 3]) ∧ (4 : ℤ) < 13 := by
  have hbb : calculate_face_bbox (some [⟨33, 2, 2⟩, ⟨263, 3, 3⟩]) 10 =
      some (0, 0, 13, 13) := by
    rw [bbox_eq]
    norm_num [colMin, colMax, List.map, List.foldl, min_def, max_def] <;> decide
  have h := claimC7 4 4 [7] [⟨33, 2, 2⟩, ⟨263, 3, 3⟩] 10 0 0 13 13 hbb
    (by decide) (by decide) (by decide) (by decide)
  exact ⟨h.1.trans (by rfl), by decide⟩

/-! The normalization contract. -/

